import Mathlib

/-!
Posture score aggregation (package score, file score/score.go).

A shallow embedding of the score-aggregation code of score.go and theorems about it.

Modelling conventions.
* The code is embedded twice. The first model reads Go float32 values as exact
  rationals: it follows the order of the arithmetic operations of the source and
  serves the claims that state which formula the code computes. The second model,
  in the namespace F32, rounds every operation to float32 (nearest, ties to even,
  subnormal values included) and serves the claims that bound a score: rounding is
  what decides those.
* Go int and int32 values are modelled by Int; the source does no integer arithmetic
  on them, it only compares them with a constant and converts them to float32.
* A function that mutates its pointer argument returns the updated value next to its
  Go results.
* A Go error result is an Option String: none is nil, some msg is an error whose
  text is msg.
* The diagnostic written through zap in ControlScore has no effect on any value and
  is not modelled.
-/

namespace Score

/-! ## External collaborators -/

/-- The view of a workload object that GetScore reads through the accessors
GetKind and GetReplicas of the package workloadinterface. -/
structure Workload where
  /-- Result of GetKind. -/
  Kind : String
  /-- Result of GetReplicas. -/
  Replicas : Int
deriving DecidableEq, Repr

/-- The part of appsv1.DaemonSetStatus that GetScore reads. -/
structure DaemonSetStatus where
  DesiredNumberScheduled : Int
deriving DecidableEq, Repr

/-- The part of appsv1.DaemonSet that GetScore reads. -/
structure DaemonSet where
  Status : DaemonSetStatus
deriving DecidableEq, Repr

/-- A raw resource object (a Go map from string to interface), seen through the two
external readers GetScore applies to it.
* workload is the result of workloadinterface.NewWorkloadObj: none is the nil pointer.
* marshalled is the result of json.Marshal followed by json.Unmarshal into a zero
  appsv1.DaemonSet: none when json.Marshal reports an error, else the daemonset
  value that the (unchecked) Unmarshal leaves behind. -/
structure Resource where
  workload : Option Workload
  marshalled : Option DaemonSet
deriving DecidableEq, Repr

/-- The function strings.ToLower of the Go standard library: letters A to Z are
mapped to a to z. The Go function also lowers letters outside ASCII, which are
left as they are here; the words GetScore compares with (the four ignored kinds,
daemonset, true) are ASCII. -/
def ToLower (s : String) : String :=
  String.mk (s.data.map Char.toLower)

/-- The score fields and resource sets of reporthandling.ControlReport that the
scorer reads and writes. The three resource lists are what
reporthandling.GetResourcesPerControl returns for the report. -/
structure ControlReport where
  Name : String
  BaseScore : ℚ
  Score : ℚ
  ARMOImprovement : ℚ
  AllResources : List Resource
  PassedResources : List Resource
  FailedResources : List Resource
deriving DecidableEq, Repr

/-- Modelled from the spec: reporthandling.GetResourcesPerControl, which is not in
score.go. The spec describes it as the report-hierarchy accessor that, given a
control, returns all evaluated resources, the resources that passed and the
resources that failed. It reads none of the score fields. -/
def GetResourcesPerControl (ctrlReport : ControlReport) :
    List Resource × List Resource × List Resource :=
  (ctrlReport.AllResources, ctrlReport.PassedResources, ctrlReport.FailedResources)

/-- The fields of reporthandling.FrameworkReport that the scorer reads and writes. -/
structure FrameworkReport where
  Name : String
  ControlReports : List ControlReport
  Score : ℚ
  ARMOImprovement : ℚ
  WCSScore : ℚ
deriving DecidableEq, Repr

/-! ## score.go, the arithmetic read as exact -/

/-- The constant replicaFactor (score.go line 19). -/
def replicaFactor : ℚ := 11 / 10

/-- The local slice ignoredKinds of GetScore (score.go lines 72 to 74). -/
def ignoredKinds : List String :=
  ["role", "rolebinding", "clusterrole", "clusterrolebinding"]

/-- The method ScoreUtil.GetScore (score.go lines 69 to 113). The first argument is
the value of the environment variable IGNORE_ENABLED that os.Getenv returns. -/
def GetScore (ignoreEnabled : String) (v : Resource) : ℚ :=
  let shouldIgnore := ToLower ignoreEnabled
  match v.workload with
  | none => 0
  | some wl =>
    let kind := ToLower wl.Kind
    let score : ℚ :=
      if wl.Replicas > 1 then 1 * ((wl.Replicas : ℚ) * replicaFactor) else 1
    if ignoredKinds.any (fun k => decide (shouldIgnore = "true") && decide (k = kind)) then 0
    else if kind = "daemonset" then
      match v.marshalled with
      | none => score
      | some dmnset =>
        if dmnset.Status.DesiredNumberScheduled > 0 then
          score * (dmnset.Status.DesiredNumberScheduled : ℚ)
        else score
    else score

/-- The two loops of ControlScore of the shape
for i := range rs (acc += su.GetScore(rs[i])), started from the accumulator acc. -/
def addScores (ignoreEnabled : String) (acc : ℚ) (rs : List Resource) : ℚ :=
  rs.foldl (fun s r => s + GetScore ignoreEnabled r) acc

/-- The method ScoreUtil.ControlScore (score.go lines 126 to 150). It returns the
control report as the call leaves it, then wcsScore, then unormalizedScore. -/
def ControlScore (ignoreEnabled : String) (ctrlReport : ControlReport)
    (_frameworkName : String) : ControlReport × ℚ × ℚ :=
  let (all, _, failed) := GetResourcesPerControl ctrlReport
  let score1 := addScores ignoreEnabled ctrlReport.Score failed
  let score2 := score1 * ctrlReport.BaseScore
  let wcsScore1 := addScores ignoreEnabled 0 all
  let wcsScore := wcsScore1 * ctrlReport.BaseScore
  let unormalizedScore := score2
  let improvement := unormalizedScore * ctrlReport.ARMOImprovement
  let score3 := if wcsScore > 0 then score2 / wcsScore else score2
  ({ ctrlReport with Score := score3, ARMOImprovement := improvement },
    wcsScore, unormalizedScore)

/-- The loop of CalculateFrameworkScore (score.go lines 45 to 51) from the control
at the head of the list onwards: the framework carries the accumulators, the result
pairs the scored controls with the framework after the last iteration. -/
def scoreControls (ignoreEnabled : String) :
    List ControlReport → FrameworkReport → List ControlReport × FrameworkReport
  | [], framework => ([], framework)
  | ctrl :: rest, framework =>
    let (ctrl1, wcsCtrl, unormalizedScore) := ControlScore ignoreEnabled ctrl framework.Name
    let framework1 :=
      { framework with
        WCSScore := framework.WCSScore + wcsCtrl
        Score := framework.Score + unormalizedScore
        ARMOImprovement := framework.ARMOImprovement + ctrl1.ARMOImprovement }
    let (rest1, framework2) := scoreControls ignoreEnabled rest framework1
    (ctrl1 :: rest1, framework2)

/-- The framework as it stands when the loop of CalculateFrameworkScore has ended
(score.go line 51): every control scored in place, the three accumulators summed. -/
def afterControls (ignoreEnabled : String) (framework : FrameworkReport) : FrameworkReport :=
  let (ctrls, framework1) := scoreControls ignoreEnabled framework.ControlReports framework
  { framework1 with ControlReports := ctrls }

/-- The text built by fmt.Errorf in CalculateFrameworkScore (score.go line 54). -/
def badWcsMessage (name : String) : String :=
  "unable to calculate score for framework " ++ name ++ " due to bad wcs score"

/-- The method ScoreUtil.CalculateFrameworkScore (score.go lines 44 to 59). It
returns the framework as the call leaves it and the error result. -/
def CalculateFrameworkScore (ignoreEnabled : String) (framework : FrameworkReport) :
    FrameworkReport × Option String :=
  let framework1 := afterControls ignoreEnabled framework
  if framework1.WCSScore = 0 then
    ({ framework1 with Score := 0 }, some (badWcsMessage framework1.Name))
  else
    let framework2 := { framework1 with Score := (framework1.Score * 100) / framework1.WCSScore }
    ({ framework2 with
        ARMOImprovement := (framework2.ARMOImprovement * 100) / framework2.WCSScore },
      none)

/-- The method ScoreUtil.Calculate (score.go lines 36 to 42): every report is scored
in place, the error result of each scoring is dropped, and nil is returned. -/
def Calculate (ignoreEnabled : String) (frameworksReports : List FrameworkReport) :
    List FrameworkReport × Option String :=
  (frameworksReports.map (fun framework => (CalculateFrameworkScore ignoreEnabled framework).1),
    none)

/-! ## Vocabulary of the claims -/

/-- Sum of GetScore over a list of resources. -/
def sumScores (ignoreEnabled : String) (rs : List Resource) : ℚ :=
  (rs.map (GetScore ignoreEnabled)).sum

/-- A workload of the given kind and replica count whose daemonset reading reports
the given number of desired scheduled nodes. -/
def mkResource (kind : String) (replicas nodes : Int) : Resource :=
  { workload := some { Kind := kind, Replicas := replicas }
    marshalled := some { Status := { DesiredNumberScheduled := nodes } } }

/-- A deployment with one replica: weight 1. -/
def resWeight1 : Resource := mkResource "Deployment" 1 0

/-- A daemonset scheduled on three nodes: weight 3. -/
def resWeight3 : Resource := mkResource "DaemonSet" 1 3

/-- Worst-case contribution of a control in the words of the claims: BaseScore times
the sum of GetScore over the evaluated resources. -/
def ctrlWorstCase (ignoreEnabled : String) (c : ControlReport) : ℚ :=
  c.BaseScore * sumScores ignoreEnabled c.AllResources

/-- The control of the end-to-end scenario: BaseScore 2, evaluated resources of
weight 1 and 3, the resource of weight 1 failed. -/
def scenarioControl : ControlReport :=
  { Name := "C-0001", BaseScore := 2, Score := 0, ARMOImprovement := 0
    AllResources := [resWeight1, resWeight3]
    PassedResources := [resWeight3]
    FailedResources := [resWeight1] }

/-- The framework of the end-to-end scenario. -/
def scenarioFramework : FrameworkReport :=
  { Name := "NSA", ControlReports := [scenarioControl], Score := 0, ARMOImprovement := 0
    WCSScore := 0 }

/-- A control with no evaluated resources and every score field 0. -/
def emptyControl : ControlReport :=
  { Name := "C-0002", BaseScore := 2, Score := 0, ARMOImprovement := 0
    AllResources := [], PassedResources := [], FailedResources := [] }

/-- A framework whose only control has no evaluated resources, every score field 0. -/
def emptyFramework : FrameworkReport :=
  { Name := "NSA", ControlReports := [emptyControl], Score := 0, ARMOImprovement := 0
    WCSScore := 0 }

/-- The framework emptyFramework with the WCSScore 8 of an earlier scoring pass still
in its field. -/
def staleFramework : FrameworkReport :=
  { emptyFramework with WCSScore := 8 }

/-- The control of the end-to-end scenario as one scoring pass leaves it (Score 1/4),
handed to the scorer again without a reset. -/
def rescoredControl : ControlReport :=
  { scenarioControl with Score := 1 / 4 }

/-- A control with no evaluated resources that still carries the Score 1/4 of an
earlier scoring pass. -/
def staleEmptyControl : ControlReport :=
  { emptyControl with Score := 1 / 4 }

/-- The desired-scheduled-node count that GetScore has in hand at score.go line 105:
the field of the daemonset read back from the resource, and 0 (no node count, the
branch is skipped) when json.Marshal reports an error. -/
def desiredNumberScheduled (v : Resource) : Int :=
  match v.marshalled with
  | none => 0
  | some dmnset => dmnset.Status.DesiredNumberScheduled

/-- A cluster role binding that declares three replicas. -/
def roleBinding3 : Resource := mkResource "ClusterRoleBinding" 3 0

/-- A deployment that declares three replicas. -/
def deployment3 : Resource := mkResource "Deployment" 3 0

/-- A daemonset with one replica scheduled on five nodes. -/
def daemonSet5 : Resource := mkResource "DaemonSet" 1 5

/-- A daemonset with one replica and no scheduled node. -/
def daemonSet0 : Resource := mkResource "DaemonSet" 1 0

/-- A raw object that NewWorkloadObj does not accept, although its daemonset reading
reports five nodes. -/
def unrecognized : Resource :=
  { workload := none, marshalled := some { Status := { DesiredNumberScheduled := 5 } } }

/-- The framework of the end-to-end scenario as one call of Calculate leaves it:
Score 25, WCSScore 8, its control with Score 1/4. -/
def scoredFramework : FrameworkReport :=
  { Name := "NSA", ControlReports := [rescoredControl], Score := 25, ARMOImprovement := 0
    WCSScore := 8 }

/-! ## score.go, the arithmetic rounded to float32

The second model of score.go, in the namespace F32 below, rounds after every
arithmetic operation the way float32 does. -/

/-- Rounding of a rational to the nearest integer, ties to the even one. -/
def roundEven (m : ℚ) : ℤ :=
  if m - (Int.floor m : ℚ) < 1 / 2 then Int.floor m
  else if 1 / 2 < m - (Int.floor m : ℚ) then Int.floor m + 1
  else if Int.floor m % 2 = 0 then Int.floor m
  else Int.floor m + 1

/-- Exponent of the spacing of the float32 values around x: 24 significant bits for a
normal value, the fixed spacing 2^-149 in the subnormal range. -/
def quantum32 (x : ℚ) : ℤ :=
  max (Int.log 2 |x| - 23) (-149)

/-- The float32 value nearest to x, ties to even (the IEEE 754 default rounding that
Go applies to every float32 operation and conversion). Overflow to infinity is not
represented: the result is the float32 result as long as it does not exceed
maxFloat32, and a theorem that speaks of the code states that bound as a
hypothesis. -/
def round32 (x : ℚ) : ℚ :=
  if x = 0 then 0
  else (roundEven (x / 2 ^ quantum32 x) : ℚ) * 2 ^ quantum32 x

/-- The largest finite float32 value, (2^24 - 1) * 2^104. -/
def maxFloat32 : ℚ := (2 ^ 24 - 1) * 2 ^ 104

namespace F32

/-- The constant replicaFactor (score.go line 19) as the float32 operand it becomes
in the product of line 84. -/
def replicaFactor : ℚ := round32 (11 / 10)

/-- The method ScoreUtil.GetScore (score.go lines 69 to 113) in float32: the
conversions float32(replicas) and float32(DesiredNumberScheduled) and each product
are rounded. -/
def GetScore (ignoreEnabled : String) (v : Resource) : ℚ :=
  let shouldIgnore := ToLower ignoreEnabled
  match v.workload with
  | none => 0
  | some wl =>
    let kind := ToLower wl.Kind
    let score : ℚ :=
      if wl.Replicas > 1 then
        round32 (1 * round32 (round32 (wl.Replicas : ℚ) * replicaFactor))
      else 1
    if ignoredKinds.any (fun k => decide (shouldIgnore = "true") && decide (k = kind)) then 0
    else if kind = "daemonset" then
      match v.marshalled with
      | none => score
      | some dmnset =>
        if dmnset.Status.DesiredNumberScheduled > 0 then
          round32 (score * round32 (dmnset.Status.DesiredNumberScheduled : ℚ))
        else score
    else score

/-- The two accumulation loops of ControlScore in float32: every addition is
rounded. -/
def addScores (ignoreEnabled : String) (acc : ℚ) (rs : List Resource) : ℚ :=
  rs.foldl (fun s r => round32 (s + GetScore ignoreEnabled r)) acc

/-- The method ScoreUtil.ControlScore (score.go lines 126 to 150) in float32. It
returns the control report as the call leaves it, then wcsScore, then
unormalizedScore. -/
def ControlScore (ignoreEnabled : String) (ctrlReport : ControlReport)
    (_frameworkName : String) : ControlReport × ℚ × ℚ :=
  let (all, _, failed) := GetResourcesPerControl ctrlReport
  let score1 := addScores ignoreEnabled ctrlReport.Score failed
  let score2 := round32 (score1 * ctrlReport.BaseScore)
  let wcsScore1 := addScores ignoreEnabled 0 all
  let wcsScore := round32 (wcsScore1 * ctrlReport.BaseScore)
  let unormalizedScore := score2
  let improvement := round32 (unormalizedScore * ctrlReport.ARMOImprovement)
  let score3 := if wcsScore > 0 then round32 (score2 / wcsScore) else score2
  ({ ctrlReport with Score := score3, ARMOImprovement := improvement },
    wcsScore, unormalizedScore)

/-- The loop of CalculateFrameworkScore (score.go lines 45 to 51) in float32. -/
def scoreControls (ignoreEnabled : String) :
    List ControlReport → FrameworkReport → List ControlReport × FrameworkReport
  | [], framework => ([], framework)
  | ctrl :: rest, framework =>
    let (ctrl1, wcsCtrl, unormalizedScore) := ControlScore ignoreEnabled ctrl framework.Name
    let framework1 :=
      { framework with
        WCSScore := round32 (framework.WCSScore + wcsCtrl)
        Score := round32 (framework.Score + unormalizedScore)
        ARMOImprovement := round32 (framework.ARMOImprovement + ctrl1.ARMOImprovement) }
    let (rest1, framework2) := scoreControls ignoreEnabled rest framework1
    (ctrl1 :: rest1, framework2)

/-- The framework as it stands when the loop of CalculateFrameworkScore has ended, in
float32. -/
def afterControls (ignoreEnabled : String) (framework : FrameworkReport) : FrameworkReport :=
  let (ctrls, framework1) := scoreControls ignoreEnabled framework.ControlReports framework
  { framework1 with ControlReports := ctrls }

/-- The method ScoreUtil.CalculateFrameworkScore (score.go lines 44 to 59) in
float32: the product by 100 is rounded, then the quotient. -/
def CalculateFrameworkScore (ignoreEnabled : String) (framework : FrameworkReport) :
    FrameworkReport × Option String :=
  let framework1 := afterControls ignoreEnabled framework
  if framework1.WCSScore = 0 then
    ({ framework1 with Score := 0 }, some (badWcsMessage framework1.Name))
  else
    let framework2 :=
      { framework1 with Score := round32 (round32 (framework1.Score * 100) / framework1.WCSScore) }
    ({ framework2 with
        ARMOImprovement :=
          round32 (round32 (framework2.ARMOImprovement * 100) / framework2.WCSScore) },
      none)

end F32

/-- A deployment that declares seven replicas. -/
def deployment7 : Resource := mkResource "Deployment" 7 0

/-- A deployment that declares nine replicas. -/
def deployment9 : Resource := mkResource "Deployment" 9 0

/-- A control with BaseScore 1 whose three evaluated deployments (3, 7 and 1
replicas) all failed, the failed list being in another order than the evaluated
list. -/
def permutedControl : ControlReport :=
  { Name := "C-0003", BaseScore := 1, Score := 0, ARMOImprovement := 0
    AllResources := [deployment3, deployment7, resWeight1]
    PassedResources := []
    FailedResources := [resWeight1, deployment7, deployment3] }

/-- A framework made of permutedControl with BaseScore 3, every framework score
field 0. -/
def permutedFramework : FrameworkReport :=
  { Name := "NSA", ControlReports := [{ permutedControl with BaseScore := 3 }], Score := 0
    ARMOImprovement := 0, WCSScore := 0 }

/-- A control with BaseScore 9 whose only evaluated resource, a deployment with nine
replicas, failed. -/
def roundedControl : ControlReport :=
  { Name := "C-0004", BaseScore := 9, Score := 0, ARMOImprovement := 0
    AllResources := [deployment9], PassedResources := [], FailedResources := [deployment9] }

/-- A framework made of roundedControl, every framework score field 0. -/
def roundedFramework : FrameworkReport :=
  { Name := "NSA", ControlReports := [roundedControl], Score := 0, ARMOImprovement := 0
    WCSScore := 0 }

/-! ## Lemmas on GetScore and the two sums -/

theorem GetScore_zero_or_one_le (env : String) (v : Resource) :
    GetScore env v = 0 ∨ 1 ≤ GetScore env v := by
  unfold GetScore
  rcases v with ⟨wl, m⟩
  cases wl with
  | none => left; rfl
  | some wl =>
    have hrep : (1 : ℚ) ≤
        (if wl.Replicas > 1 then 1 * ((wl.Replicas : ℚ) * replicaFactor) else 1) := by
      split_ifs with h
      · have h2 : (2 : ℚ) ≤ (wl.Replicas : ℚ) := by exact_mod_cast h
        unfold replicaFactor
        linarith
      · exact le_refl _
    simp only []
    generalize (if wl.Replicas > 1 then 1 * ((wl.Replicas : ℚ) * replicaFactor) else 1) = score
      at hrep ⊢
    split_ifs with hi hd
    · left; rfl
    · right
      cases m with
      | none => exact hrep
      | some d =>
        simp only []
        split_ifs with hn
        · have h1 : (1 : ℚ) ≤ (d.Status.DesiredNumberScheduled : ℚ) := by exact_mod_cast hn
          nlinarith
        · exact hrep
    · right; exact hrep

theorem GetScore_nonneg (env : String) (v : Resource) : 0 ≤ GetScore env v := by
  rcases GetScore_zero_or_one_le env v with h | h
  · rw [h]
  · linarith

theorem addScores_eq (env : String) (acc : ℚ) (rs : List Resource) :
    addScores env acc rs = acc + sumScores env rs := by
  unfold addScores sumScores
  induction rs generalizing acc with
  | nil => simp
  | cons r rs ih =>
    simp only [List.foldl_cons, List.map_cons, List.sum_cons]
    rw [ih]
    ring

theorem sumScores_nonneg (env : String) (rs : List Resource) : 0 ≤ sumScores env rs := by
  unfold sumScores
  apply List.sum_nonneg
  intro x hx
  rcases List.mem_map.mp hx with ⟨r, _, rfl⟩
  exact GetScore_nonneg env r

/-! ## Lemmas on ControlScore -/

theorem ControlScore_wcs (env : String) (c : ControlReport) (n : String) :
    (ControlScore env c n).2.1 = sumScores env c.AllResources * c.BaseScore := by
  simp [ControlScore, GetResourcesPerControl, addScores_eq]

theorem ControlScore_unorm (env : String) (c : ControlReport) (n : String) :
    (ControlScore env c n).2.2 = (c.Score + sumScores env c.FailedResources) * c.BaseScore := by
  simp [ControlScore, GetResourcesPerControl, addScores_eq]

theorem ControlScore_Score (env : String) (c : ControlReport) (n : String) :
    (ControlScore env c n).1.Score =
      if (ControlScore env c n).2.1 > 0 then (ControlScore env c n).2.2 / (ControlScore env c n).2.1
      else (ControlScore env c n).2.2 := by
  simp [ControlScore, GetResourcesPerControl]

theorem scoreControls_Name (env : String) (cs : List ControlReport) (fw : FrameworkReport) :
    (scoreControls env cs fw).2.Name = fw.Name := by
  induction cs generalizing fw with
  | nil => rfl
  | cons c cs ih => simp only [scoreControls]; rw [ih]

theorem scoreControls_WCSScore (env : String) (cs : List ControlReport) (fw : FrameworkReport) :
    (scoreControls env cs fw).2.WCSScore =
      fw.WCSScore + (cs.map (fun c => (ControlScore env c fw.Name).2.1)).sum := by
  induction cs generalizing fw with
  | nil => simp [scoreControls]
  | cons c cs ih =>
    simp only [scoreControls, List.map_cons, List.sum_cons]
    rw [ih]
    ring

theorem afterControls_Name (env : String) (fw : FrameworkReport) :
    (afterControls env fw).Name = fw.Name := by
  simp [afterControls, scoreControls_Name]

theorem afterControls_WCSScore (env : String) (fw : FrameworkReport) :
    (afterControls env fw).WCSScore =
      fw.WCSScore + (fw.ControlReports.map (fun c => (ControlScore env c fw.Name).2.1)).sum := by
  simp [afterControls, scoreControls_WCSScore]

theorem CalculateFrameworkScore_err (env : String) (fw : FrameworkReport) :
    (CalculateFrameworkScore env fw).2 =
      if (afterControls env fw).WCSScore = 0 then some (badWcsMessage fw.Name) else none := by
  unfold CalculateFrameworkScore
  simp only []
  split_ifs with h
  · simp [afterControls_Name]
  · rfl

theorem CalculateFrameworkScore_Score (env : String) (fw : FrameworkReport) :
    (CalculateFrameworkScore env fw).1.Score =
      if (afterControls env fw).WCSScore = 0 then 0
      else ((afterControls env fw).Score * 100) / (afterControls env fw).WCSScore := by
  unfold CalculateFrameworkScore
  simp only []
  split_ifs with h <;> rfl

/-- Sum over the controls of the worst-case contributions, as the loop accumulates
them when every field starts at 0. -/
theorem sum_wcs_eq (env : String) (n : String) (cs : List ControlReport) :
    (cs.map (fun c => (ControlScore env c n).2.1)).sum = (cs.map (ctrlWorstCase env)).sum := by
  congr 1
  apply List.map_congr_left
  intro c _
  rw [ControlScore_wcs]
  unfold ctrlWorstCase
  ring

theorem GetScore_resWeight1 : GetScore "" resWeight1 = 1 := by
  simp [GetScore, resWeight1, mkResource, ToLower, ignoredKinds]

theorem GetScore_resWeight3 : GetScore "" resWeight3 = 3 := by
  simp [GetScore, resWeight3, mkResource, ToLower, ignoredKinds]

/-- C3, as stated, fails: staleFramework has a single control with zero evaluated
resources, yet with WCSScore 8 on entry the accumulated WCSScore stays 8 and
CalculateFrameworkScore returns no error. -/
theorem CalculateFrameworkScore_stale_no_error :
    (∀ c ∈ staleFramework.ControlReports, c.AllResources = []) ∧
    (CalculateFrameworkScore "" staleFramework).2 = none ∧
    (CalculateFrameworkScore "" staleFramework).1.WCSScore = 8 := by
  refine ⟨?_, ?_, ?_⟩
  · intro c hc
    simp [staleFramework, emptyFramework] at hc
    rw [hc]
    rfl
  · simp [CalculateFrameworkScore, afterControls, scoreControls, ControlScore,
      GetResourcesPerControl, addScores, staleFramework, emptyFramework, emptyControl]
  · simp [CalculateFrameworkScore, afterControls, scoreControls, ControlScore,
      GetResourcesPerControl, addScores, staleFramework, emptyFramework, emptyControl]

/-- C3, amended. For a framework whose WCSScore is 0 on entry and in which every
control has zero evaluated resources, CalculateFrameworkScore returns a non-nil error
and the framework ends with Score 0. -/
theorem CalculateFrameworkScore_no_resources (env : String) (fw : FrameworkReport)
    (hWcs : fw.WCSScore = 0)
    (hAll : ∀ c ∈ fw.ControlReports, c.AllResources = []) :
    (CalculateFrameworkScore env fw).2 ≠ none ∧
    (CalculateFrameworkScore env fw).1.Score = 0 := by
  have hzero : (fw.ControlReports.map (ctrlWorstCase env)).sum = 0 := by
    apply List.sum_eq_zero
    intro x hx
    rcases List.mem_map.mp hx with ⟨c, hc, rfl⟩
    simp [ctrlWorstCase, hAll c hc, sumScores]
  have hw : (afterControls env fw).WCSScore = 0 := by
    rw [afterControls_WCSScore, hWcs, sum_wcs_eq, hzero, zero_add]
  constructor
  · rw [CalculateFrameworkScore_err, if_pos hw]
    exact Option.some_ne_none _
  · rw [CalculateFrameworkScore_Score, if_pos hw]

/-- C3, amended, at emptyFramework: the call returns the error that names the
framework NSA and leaves Score 0. -/
theorem CalculateFrameworkScore_no_resources_witness :
    (CalculateFrameworkScore "" emptyFramework).2 ≠ none ∧
    (CalculateFrameworkScore "" emptyFramework).1.Score = 0 :=
  CalculateFrameworkScore_no_resources "" emptyFramework rfl
    (by intro c hc; simp [emptyFramework] at hc; rw [hc]; rfl)

/-- C4. CalculateFrameworkScore returns an error exactly when WCSScore is 0 once the
loop has added the worst-case score of every control to its value on entry; the
error then leaves Score 0 and its text is the fixed sentence with the name of the
framework in it. -/
theorem CalculateFrameworkScore_error_iff (env : String) (fw : FrameworkReport) :
    (afterControls env fw).WCSScore =
        fw.WCSScore + (fw.ControlReports.map (fun c => (ControlScore env c fw.Name).2.1)).sum ∧
    ((CalculateFrameworkScore env fw).2 ≠ none ↔ (afterControls env fw).WCSScore = 0) ∧
    ((CalculateFrameworkScore env fw).2 ≠ none →
      (CalculateFrameworkScore env fw).1.Score = 0 ∧
      (CalculateFrameworkScore env fw).2 =
        some ("unable to calculate score for framework " ++ fw.Name ++
          " due to bad wcs score")) := by
  refine ⟨afterControls_WCSScore env fw, ?_, ?_⟩
  · rw [CalculateFrameworkScore_err]
    split_ifs with h <;> simp [h]
  · rw [CalculateFrameworkScore_err, CalculateFrameworkScore_Score]
    split_ifs with h
    · intro _
      exact ⟨rfl, rfl⟩
    · intro hne
      exact absurd rfl hne

/-! ## Claims on ControlScore -/

/-- C9, as stated, fails: staleEmptyControl has zero evaluated (and zero failed)
resources and Score 1/4 on entry; ControlScore returns wcsScore 0 and leaves the
control with Score 1/4 * 2 = 1/2, not 0. -/
theorem ControlScore_stale_no_resources :
    staleEmptyControl.AllResources = [] ∧ staleEmptyControl.FailedResources = [] ∧
    (ControlScore "" staleEmptyControl "NSA").2.1 = 0 ∧
    (ControlScore "" staleEmptyControl "NSA").1.Score = 1 / 2 ∧
    (ControlScore "" staleEmptyControl "NSA").1.Score ≠ 0 := by
  have h : (ControlScore "" staleEmptyControl "NSA").1.Score = 1 / 2 := by
    simp [ControlScore, GetResourcesPerControl, addScores, staleEmptyControl, emptyControl]
    norm_num
  refine ⟨rfl, rfl, ?_, h, ?_⟩
  · simp [ControlScore, GetResourcesPerControl, addScores, staleEmptyControl, emptyControl]
  · rw [h]; norm_num

/-- C9, amended. For every control with zero evaluated resources, ControlScore (a
total function) returns wcsScore = 0; when moreover the Score of the control is 0 on
entry and its failed resources form a sub-collection of its evaluated resources, the
control is left with Score 0. -/
theorem ControlScore_no_resources (env : String) (c : ControlReport) (n : String)
    (hAll : c.AllResources = []) :
    (ControlScore env c n).2.1 = 0 ∧
    (c.Score = 0 → c.FailedResources.Subperm c.AllResources →
      (ControlScore env c n).1.Score = 0) := by
  have hw : (ControlScore env c n).2.1 = 0 := by
    rw [ControlScore_wcs, hAll]
    simp [sumScores]
  refine ⟨hw, ?_⟩
  intro hScore hsub
  have hF : c.FailedResources = [] := by
    rw [hAll] at hsub
    exact List.subperm_nil.mp hsub
  rw [ControlScore_Score, hw, if_neg (lt_irrefl 0), ControlScore_unorm, hScore, hF]
  simp [sumScores]

/-- C9, amended, at emptyControl: wcsScore is 0 and the control is left with Score
0. -/
theorem ControlScore_no_resources_witness :
    (ControlScore "" emptyControl "NSA").2.1 = 0 ∧
    (ControlScore "" emptyControl "NSA").1.Score = 0 :=
  ⟨(ControlScore_no_resources "" emptyControl "NSA" rfl).1,
    (ControlScore_no_resources "" emptyControl "NSA" rfl).2 rfl (List.Subperm.refl _)⟩

theorem GetScore_of_workload (env : String) (v : Resource) (wl : Workload)
    (hw : v.workload = some wl) :
    GetScore env v =
      if ignoredKinds.any
          (fun k => decide (ToLower env = "true") && decide (k = ToLower wl.Kind)) then 0
      else if ToLower wl.Kind = "daemonset" then
        if desiredNumberScheduled v > 0 then
          (if wl.Replicas > 1 then 1 * ((wl.Replicas : ℚ) * replicaFactor) else 1) *
            (desiredNumberScheduled v : ℚ)
        else (if wl.Replicas > 1 then 1 * ((wl.Replicas : ℚ) * replicaFactor) else 1)
      else (if wl.Replicas > 1 then 1 * ((wl.Replicas : ℚ) * replicaFactor) else 1) := by
  rcases v with ⟨w, m⟩
  simp only at hw
  subst hw
  cases m with
  | none => simp [GetScore, desiredNumberScheduled]
  | some d => simp [GetScore, desiredNumberScheduled]

theorem any_ignored_of_mem (env kind : String) (hflag : ToLower env = "true")
    (hkind : kind ∈ ignoredKinds) :
    ignoredKinds.any (fun k => decide (ToLower env = "true") && decide (k = kind)) = true := by
  rw [List.any_eq_true]
  exact ⟨kind, hkind, by simp [hflag]⟩

theorem any_ignored_of_not_mem (env kind : String) (hkind : kind ∉ ignoredKinds) :
    ignoredKinds.any (fun k => decide (ToLower env = "true") && decide (k = kind)) = false := by
  rw [Bool.eq_false_iff]
  intro h
  rw [List.any_eq_true] at h
  obtain ⟨k, hk, hb⟩ := h
  simp only [Bool.and_eq_true, decide_eq_true_eq] at hb
  exact hkind (hb.2 ▸ hk)

/-- C14. For every resource that is a workload whose lower-cased kind is one of role,
rolebinding, clusterrole, clusterrolebinding, when the lower-cased value of the
ignore flag is the word true, GetScore returns exactly 0, whatever the replica count
and the daemonset reading. -/
theorem GetScore_ignored (env : String) (v : Resource) (wl : Workload)
    (hw : v.workload = some wl) (hflag : ToLower env = "true")
    (hkind : ToLower wl.Kind ∈ ignoredKinds) :
    GetScore env v = 0 := by
  rw [GetScore_of_workload env v wl hw, any_ignored_of_mem env _ hflag hkind]
  rfl

/-- C14 at a ClusterRoleBinding with three replicas under the flag value TRUE: the
weight is 0. -/
theorem GetScore_ignored_witness : GetScore "TRUE" roleBinding3 = 0 :=
  GetScore_ignored "TRUE" roleBinding3 { Kind := "ClusterRoleBinding", Replicas := 3 } rfl
    (by simp [ToLower]) (by simp [ToLower, ignoredKinds])

/-- C17. For every workload whose lower-cased kind is daemonset, whatever the ignore
flag: with at most one replica and a positive desired-scheduled-node count n,
GetScore returns n; with a node count that is not positive the weight is left
unmultiplied, that is the replica weight (1 with at most one replica). -/
theorem GetScore_daemonset (env : String) (v : Resource) (wl : Workload)
    (hw : v.workload = some wl) (hk : ToLower wl.Kind = "daemonset") :
    (wl.Replicas ≤ 1 → 0 < desiredNumberScheduled v →
      GetScore env v = (desiredNumberScheduled v : ℚ)) ∧
    (¬ 0 < desiredNumberScheduled v →
      GetScore env v = if wl.Replicas > 1 then (wl.Replicas : ℚ) * replicaFactor else 1) ∧
    (wl.Replicas ≤ 1 → ¬ 0 < desiredNumberScheduled v → GetScore env v = 1) := by
  have hnot : ToLower wl.Kind ∉ ignoredKinds := by
    rw [hk]
    simp [ignoredKinds]
  have hG := GetScore_of_workload env v wl hw
  rw [any_ignored_of_not_mem env _ hnot] at hG
  refine ⟨?_, ?_, ?_⟩
  · intro hr hn
    rw [hG]
    simp [hk, hn, not_lt.mpr hr]
  · intro hn
    rw [hG]
    simp [hk, hn]
  · intro hr hn
    rw [hG]
    simp [hk, hn, not_lt.mpr hr]

/-- C17 at a daemonset with one replica: scheduled on five nodes it weighs 5 (also
with the ignore flag enabled), with no scheduled node it weighs 1. -/
theorem GetScore_daemonset_witness :
    GetScore "true" daemonSet5 = 5 ∧ GetScore "true" daemonSet0 = 1 :=
  ⟨(GetScore_daemonset "true" daemonSet5 { Kind := "DaemonSet", Replicas := 1 } rfl
      (by simp [ToLower])).1 (by decide) (by decide),
    (GetScore_daemonset "true" daemonSet0 { Kind := "DaemonSet", Replicas := 1 } rfl
      (by simp [ToLower])).2.2 (by decide) (by decide)⟩

/-- C18. For every resource that NewWorkloadObj does not interpret as a workload,
GetScore returns 0 whatever the ignore flag and the rest of the raw object, and the
resource leaves both accumulation loops of ControlScore where they stood. -/
theorem GetScore_unrecognized (env : String) (v : Resource) (hw : v.workload = none) :
    GetScore env v = 0 ∧
    ∀ (acc : ℚ) (rs : List Resource), addScores env acc (v :: rs) = addScores env acc rs := by
  have h0 : GetScore env v = 0 := by
    rcases v with ⟨w, m⟩
    simp only at hw
    subst hw
    rfl
  refine ⟨h0, ?_⟩
  intro acc rs
  simp [addScores, h0]

/-- C18 at a raw object that is no workload but reads five nodes as a daemonset, with
the ignore flag enabled: the weight is 0. -/
theorem GetScore_unrecognized_witness :
    GetScore "true" unrecognized = 0 ∧ addScores "true" 7 [unrecognized] = 7 := by
  have h := GetScore_unrecognized "true" unrecognized rfl
  refine ⟨h.1, ?_⟩
  rw [h.2 7 []]
  rfl

/-- C20. For every resource and every value of the ignore flag the weight returned by
GetScore is exactly 0 or at least 1, hence never negative and never strictly between
0 and 1; and for every control with BaseScore >= 0 and Score 0 on entry both values
returned by ControlScore are non-negative. -/
theorem GetScore_zero_or_at_least_one (env : String) :
    (∀ v : Resource, (GetScore env v = 0 ∨ 1 ≤ GetScore env v) ∧ 0 ≤ GetScore env v ∧
      ¬ (0 < GetScore env v ∧ GetScore env v < 1)) ∧
    (∀ (c : ControlReport) (n : String), 0 ≤ c.BaseScore → c.Score = 0 →
      0 ≤ (ControlScore env c n).2.1 ∧ 0 ≤ (ControlScore env c n).2.2) := by
  constructor
  · intro v
    refine ⟨GetScore_zero_or_one_le env v, GetScore_nonneg env v, ?_⟩
    rintro ⟨h1, h2⟩
    rcases GetScore_zero_or_one_le env v with h | h
    · rw [h] at h1
      exact lt_irrefl 0 h1
    · linarith
  · intro c n hb hs
    rw [ControlScore_wcs, ControlScore_unorm, hs, zero_add]
    exact ⟨mul_nonneg (sumScores_nonneg env _) hb, mul_nonneg (sumScores_nonneg env _) hb⟩

/-! ## Claims on Calculate -/

theorem CalculateFrameworkScore_emptyFramework :
    (CalculateFrameworkScore "" emptyFramework).2 =
      some "unable to calculate score for framework NSA due to bad wcs score" := by
  rw [CalculateFrameworkScore_err, afterControls_WCSScore]
  simp [emptyFramework, emptyControl, ControlScore, GetResourcesPerControl, addScores,
    badWcsMessage]

/-- C11, as stated, fails: scoring emptyFramework fails with the bad wcs score error,
yet Calculate on the list made of that report returns nil. -/
theorem Calculate_drops_error :
    (∃ fw ∈ [emptyFramework], (CalculateFrameworkScore "" fw).2 ≠ none) ∧
    (Calculate "" [emptyFramework]).2 = none ∧
    ¬ ((Calculate "" [emptyFramework]).2 ≠ none ↔
        ∃ fw ∈ [emptyFramework], (CalculateFrameworkScore "" fw).2 ≠ none) := by
  have hfail : ∃ fw ∈ [emptyFramework], (CalculateFrameworkScore "" fw).2 ≠ none :=
    ⟨emptyFramework, List.mem_singleton.mpr rfl, by
      rw [CalculateFrameworkScore_emptyFramework]
      exact Option.some_ne_none _⟩
  refine ⟨hfail, rfl, ?_⟩
  intro h
  exact (h.mpr hfail) rfl

/-- C11, amended. For every list of framework reports Calculate returns a nil error,
whether or not CalculateFrameworkScore fails for a report of the list: the error of
each scoring is discarded. -/
theorem Calculate_returns_nil (env : String) (frameworksReports : List FrameworkReport) :
    (Calculate env frameworksReports).2 = none ∧
    ((∃ fw ∈ frameworksReports, (CalculateFrameworkScore env fw).2 ≠ none) →
      (Calculate env frameworksReports).2 = none) :=
  ⟨rfl, fun _ => rfl⟩

/-- C12. Calculate does not abort: it returns as many reports as it received, and the
report at every position, also behind a report whose scoring fails, is the state
that CalculateFrameworkScore alone produces from the report that was at that
position, whatever the other reports of the list are. -/
theorem Calculate_each_report (env : String) (frameworksReports : List FrameworkReport) :
    (Calculate env frameworksReports).1.length = frameworksReports.length ∧
    ∀ i : Nat, (Calculate env frameworksReports).1[i]? =
      (frameworksReports[i]?).map (fun fw => (CalculateFrameworkScore env fw).1) := by
  constructor
  · simp [Calculate]
  · intro i
    simp [Calculate, List.getElem?_map]

theorem CalculateFrameworkScore_scenario :
    (CalculateFrameworkScore "" scenarioFramework).1 = scoredFramework := by
  simp [CalculateFrameworkScore, afterControls, scoreControls, ControlScore,
    GetResourcesPerControl, addScores, scenarioFramework, scenarioControl, scoredFramework,
    rescoredControl, GetScore_resWeight1, GetScore_resWeight3]
  norm_num

theorem CalculateFrameworkScore_scored :
    (CalculateFrameworkScore "" scoredFramework).1.Score = 1375 / 8 := by
  simp [CalculateFrameworkScore, afterControls, scoreControls, ControlScore,
    GetResourcesPerControl, addScores, scenarioControl, scoredFramework,
    rescoredControl, GetScore_resWeight1, GetScore_resWeight3]
  norm_num

/-- C13. Calculate is not idempotent on a report that is not reset: on the end-to-end
scenario the first call leaves framework Score 25 (WCSScore 8, control Score 1/4);
a second call on that result leaves framework Score 1375/8 = 171.875, strictly
greater than 25. -/
theorem Calculate_twice_inflates :
    (Calculate "" [scenarioFramework]).1 = [scoredFramework] ∧
    (Calculate "" [scenarioFramework]).1.map (fun fw => fw.Score) = [25] ∧
    (Calculate "" (Calculate "" [scenarioFramework]).1).1.map (fun fw => fw.Score)
      = [1375 / 8] ∧
    (25 : ℚ) < 1375 / 8 := by
  have h1 : (Calculate "" [scenarioFramework]).1 = [scoredFramework] := by
    simp [Calculate, CalculateFrameworkScore_scenario]
  refine ⟨h1, ?_, ?_, by norm_num⟩
  · rw [h1]
    rfl
  · rw [h1]
    simp [Calculate, CalculateFrameworkScore_scored]

/-! ## Claim on the improvement score of the framework -/

theorem roundEven_intCast (n : ℤ) : roundEven (n : ℚ) = n := by
  simp [roundEven]

theorem roundEven_bounds (m : ℚ) :
    Int.floor m ≤ roundEven m ∧ roundEven m ≤ Int.floor m + 1 := by
  unfold roundEven
  split_ifs <;> omega

theorem roundEven_mono {m m' : ℚ} (h : m ≤ m') : roundEven m ≤ roundEven m' := by
  have hf : Int.floor m ≤ Int.floor m' := Int.floor_mono h
  rcases lt_or_eq_of_le hf with hlt | heq
  · have h1 := (roundEven_bounds m).2
    have h2 := (roundEven_bounds m').1
    omega
  · unfold roundEven
    rw [← heq]
    have hd : m - (Int.floor m : ℚ) ≤ m' - (Int.floor m : ℚ) := by linarith
    split_ifs <;> first | omega | (exfalso; linarith)

theorem roundEven_le_add_half (m : ℚ) : (roundEven m : ℚ) ≤ m + 1 / 2 := by
  have h1 := Int.floor_le m
  unfold roundEven
  split_ifs with ha hb hc
  · linarith
  · push_cast; linarith [Int.lt_floor_add_one m]
  · linarith
  · push_cast
    have : m - (Int.floor m : ℚ) = 1 / 2 := le_antisymm (not_lt.mp hb) (not_lt.mp ha)
    linarith

theorem two_zpow_pos (k : ℤ) : (0 : ℚ) < 2 ^ k := zpow_pos (by norm_num) k

theorem log_eq_of_mem {x : ℚ} {e : ℤ} (hx : 0 < x) (h1 : (2 : ℚ) ^ e ≤ x)
    (h2 : x < 2 ^ (e + 1)) : Int.log 2 x = e := by
  have a1 : e ≤ Int.log 2 x := by
    apply (Int.zpow_le_iff_le_log (b := 2) (by norm_num) hx).mp
    simpa using h1
  have a2 : Int.log 2 x < e + 1 := by
    apply (Int.lt_zpow_iff_log_lt (b := 2) (by norm_num) hx).mp
    simpa using h2
  omega

theorem zpow_log_le {x : ℚ} (hx : 0 < x) : (2 : ℚ) ^ Int.log 2 x ≤ x := by
  simpa using Int.zpow_log_le_self (b := 2) (by norm_num) hx

theorem lt_zpow_log_succ (x : ℚ) : x < (2 : ℚ) ^ (Int.log 2 x + 1) := by
  simpa using Int.lt_zpow_succ_log_self (b := 2) (by norm_num) x

theorem round32_zero : round32 0 = 0 := by
  simp [round32]

theorem round32_nonneg {x : ℚ} (hx : 0 ≤ x) : 0 ≤ round32 x := by
  unfold round32
  split_ifs with h0
  · exact le_refl 0
  · have hq := two_zpow_pos (quantum32 x)
    have hm : (0 : ℚ) ≤ x / 2 ^ quantum32 x := div_nonneg hx (le_of_lt hq)
    have h := roundEven_mono hm
    have h0' : roundEven (0 : ℚ) = 0 := by simpa using roundEven_intCast 0
    rw [h0'] at h
    have : (0 : ℚ) ≤ (roundEven (x / 2 ^ quantum32 x) : ℚ) := by exact_mod_cast h
    exact mul_nonneg this (le_of_lt hq)

theorem lt_zpow_quantum {x : ℚ} (hx : 0 < x) : x < 2 ^ (quantum32 x + 24) := by
  have h1 := lt_zpow_log_succ x
  have h2 : Int.log 2 x + 1 ≤ quantum32 x + 24 := by
    unfold quantum32
    rw [abs_of_pos hx]
    have := le_max_left (Int.log 2 x - 23) (-149)
    omega
  exact lt_of_lt_of_le h1 (zpow_le_zpow_right₀ (by norm_num) h2)

theorem round32_le_zpow {x : ℚ} (hx : 0 < x) : round32 x ≤ 2 ^ (quantum32 x + 24) := by
  have hq := two_zpow_pos (quantum32 x)
  have hlt := lt_zpow_quantum hx
  have hm : x / 2 ^ quantum32 x ≤ ((2 ^ 24 : ℤ) : ℚ) := by
    rw [div_le_iff₀ hq]
    have : ((2 ^ 24 : ℤ) : ℚ) * 2 ^ quantum32 x = 2 ^ (quantum32 x + 24) := by
      rw [zpow_add₀ (by norm_num : (2 : ℚ) ≠ 0)]
      norm_num
      ring
    rw [this]
    exact le_of_lt hlt
  have h := roundEven_mono hm
  rw [roundEven_intCast] at h
  unfold round32
  rw [if_neg (ne_of_gt hx)]
  have h' : (roundEven (x / 2 ^ quantum32 x) : ℚ) ≤ 2 ^ 24 := by exact_mod_cast h
  calc (roundEven (x / 2 ^ quantum32 x) : ℚ) * 2 ^ quantum32 x
      ≤ 2 ^ 24 * 2 ^ quantum32 x := mul_le_mul_of_nonneg_right h' (le_of_lt hq)
    _ = 2 ^ (quantum32 x + 24) := by
      rw [zpow_add₀ (by norm_num : (2 : ℚ) ≠ 0)]
      norm_num
      ring

theorem zpow_le_round32 {x : ℚ} (hx : 0 < x) (hq : -149 < quantum32 x) :
    2 ^ (quantum32 x + 23) ≤ round32 x := by
  have hqp := two_zpow_pos (quantum32 x)
  have he : quantum32 x = Int.log 2 x - 23 := by
    unfold quantum32 at hq ⊢
    rw [abs_of_pos hx] at hq ⊢
    rcases max_cases (Int.log 2 x - 23) (-149) with ⟨h, _⟩ | ⟨h, _⟩
    · exact h
    · rw [h] at hq; omega
  have hle : (2 : ℚ) ^ (quantum32 x + 23) ≤ x := by
    have := zpow_log_le hx
    rw [he]
    simpa using this
  have hm : ((2 ^ 23 : ℤ) : ℚ) ≤ x / 2 ^ quantum32 x := by
    rw [le_div_iff₀ hqp]
    have : ((2 ^ 23 : ℤ) : ℚ) * 2 ^ quantum32 x = 2 ^ (quantum32 x + 23) := by
      rw [zpow_add₀ (by norm_num : (2 : ℚ) ≠ 0)]
      norm_num
      ring
    rw [this]
    exact hle
  have h := roundEven_mono hm
  rw [roundEven_intCast] at h
  unfold round32
  rw [if_neg (ne_of_gt hx)]
  have h' : (2 : ℚ) ^ 23 ≤ (roundEven (x / 2 ^ quantum32 x) : ℚ) := by exact_mod_cast h
  calc (2 : ℚ) ^ (quantum32 x + 23) = 2 ^ 23 * 2 ^ quantum32 x := by
        rw [zpow_add₀ (by norm_num : (2 : ℚ) ≠ 0)]
        norm_num
        ring
    _ ≤ (roundEven (x / 2 ^ quantum32 x) : ℚ) * 2 ^ quantum32 x :=
        mul_le_mul_of_nonneg_right h' (le_of_lt hqp)

theorem quantum32_mono {x y : ℚ} (hx : 0 < x) (hxy : x ≤ y) : quantum32 x ≤ quantum32 y := by
  unfold quantum32
  rw [abs_of_pos hx, abs_of_pos (lt_of_lt_of_le hx hxy)]
  have := Int.log_mono_right (b := 2) hx hxy
  exact max_le_max (by omega) (le_refl _)

theorem round32_mono {x y : ℚ} (hx : 0 ≤ x) (hxy : x ≤ y) : round32 x ≤ round32 y := by
  rcases eq_or_lt_of_le hx with h0 | hpos
  · rw [← h0, round32_zero]
    exact round32_nonneg (le_trans hx hxy)
  · have hy : 0 < y := lt_of_lt_of_le hpos hxy
    have hq := quantum32_mono hpos hxy
    rcases eq_or_lt_of_le hq with heq | hlt
    · unfold round32
      rw [if_neg (ne_of_gt hpos), if_neg (ne_of_gt hy), heq]
      have hqp := two_zpow_pos (quantum32 y)
      have hm : x / 2 ^ quantum32 y ≤ y / 2 ^ quantum32 y :=
        div_le_div_of_nonneg_right hxy (le_of_lt hqp)
      have h := roundEven_mono hm
      have h' : (roundEven (x / 2 ^ quantum32 y) : ℚ) ≤ (roundEven (y / 2 ^ quantum32 y) : ℚ) := by
        exact_mod_cast h
      exact mul_le_mul_of_nonneg_right h' (le_of_lt hqp)
    · have h1 := round32_le_zpow hpos
      have hq149 : -149 ≤ quantum32 x := by
        unfold quantum32
        exact le_max_right _ _
      have h2 := zpow_le_round32 hy (by omega)
      have h3 : (2 : ℚ) ^ (quantum32 x + 24) ≤ 2 ^ (quantum32 y + 23) :=
        zpow_le_zpow_right₀ (by norm_num) (by omega)
      linarith

theorem quantum32_ge (x : ℚ) : -149 ≤ quantum32 x := by
  unfold quantum32
  exact le_max_right _ _

theorem roundEven_quantum_nonneg {x : ℚ} (hx : 0 ≤ x) :
    0 ≤ roundEven (x / 2 ^ quantum32 x) := by
  have hm : (0 : ℚ) ≤ x / 2 ^ quantum32 x := div_nonneg hx (le_of_lt (two_zpow_pos _))
  have h := roundEven_mono hm
  have h0' : roundEven (0 : ℚ) = 0 := by simpa using roundEven_intCast 0
  rw [h0'] at h
  exact h

theorem roundEven_quantum_le {x : ℚ} (hx : 0 < x) :
    roundEven (x / 2 ^ quantum32 x) ≤ 2 ^ 24 := by
  have hq := two_zpow_pos (quantum32 x)
  have hlt := lt_zpow_quantum hx
  have hm : x / 2 ^ quantum32 x ≤ ((2 ^ 24 : ℤ) : ℚ) := by
    rw [div_le_iff₀ hq]
    have : ((2 ^ 24 : ℤ) : ℚ) * 2 ^ quantum32 x = 2 ^ (quantum32 x + 24) := by
      rw [zpow_add₀ (by norm_num : (2 : ℚ) ≠ 0)]
      norm_num
      ring
    rw [this]
    exact le_of_lt hlt
  have h := roundEven_mono hm
  rw [roundEven_intCast] at h
  exact h

theorem round32_repr (n k : ℤ) (hn0 : 0 < n) (hn : n < 2 ^ 24) (hk : -149 ≤ k) :
    round32 ((n : ℚ) * 2 ^ k) = (n : ℚ) * 2 ^ k := by
  have hk2 := two_zpow_pos k
  have hnq : (0 : ℚ) < (n : ℚ) := by exact_mod_cast hn0
  have hx : (0 : ℚ) < (n : ℚ) * 2 ^ k := mul_pos hnq hk2
  have hlt : (n : ℚ) * 2 ^ k < 2 ^ (24 + k) := by
    rw [zpow_add₀ (by norm_num : (2 : ℚ) ≠ 0)]
    have : (n : ℚ) < 2 ^ (24 : ℤ) := by
      have h24 : (n : ℚ) < ((2 ^ 24 : ℤ) : ℚ) := by exact_mod_cast hn
      norm_num at h24 ⊢
      exact h24
    exact mul_lt_mul_of_pos_right this hk2
  have hlog : Int.log 2 ((n : ℚ) * 2 ^ k) < 24 + k := by
    apply (Int.lt_zpow_iff_log_lt (b := 2) (by norm_num) hx).mp
    simpa using hlt
  have hq : quantum32 ((n : ℚ) * 2 ^ k) ≤ k := by
    unfold quantum32
    rw [abs_of_pos hx]
    exact max_le (by omega) hk
  obtain ⟨d, hd⟩ : ∃ d : ℕ, k = quantum32 ((n : ℚ) * 2 ^ k) + (d : ℤ) :=
    ⟨(k - quantum32 ((n : ℚ) * 2 ^ k)).toNat, by omega⟩
  unfold round32
  rw [if_neg (ne_of_gt hx)]
  generalize quantum32 ((n : ℚ) * 2 ^ k) = q at hd
  have hq2 := two_zpow_pos q
  have hm : (n : ℚ) * 2 ^ k / 2 ^ q = ((n * 2 ^ d : ℤ) : ℚ) := by
    rw [hd, zpow_add₀ (by norm_num : (2 : ℚ) ≠ 0), zpow_natCast]
    push_cast
    field_simp
    ring
  rw [hm, roundEven_intCast]
  rw [hd, zpow_add₀ (by norm_num : (2 : ℚ) ≠ 0), zpow_natCast]
  push_cast
  ring

theorem round32_idem {x : ℚ} (hx : 0 ≤ x) : round32 (round32 x) = round32 x := by
  rcases eq_or_lt_of_le hx with h0 | hpos
  · rw [← h0, round32_zero, round32_zero]
  · have hN0 := roundEven_quantum_nonneg hx
    have hN := roundEven_quantum_le hpos
    have hq := quantum32_ge x
    have hr : round32 x = (roundEven (x / 2 ^ quantum32 x) : ℚ) * 2 ^ quantum32 x := by
      unfold round32
      rw [if_neg (ne_of_gt hpos)]
    rw [hr]
    generalize roundEven (x / 2 ^ quantum32 x) = N at hN0 hN
    generalize quantum32 x = q at hq
    rcases eq_or_lt_of_le hN0 with hz | hNpos
    · rw [← hz]
      simp [round32_zero]
    · rcases eq_or_lt_of_le hN with hmax | hlt
      · have h2 : (N : ℚ) * 2 ^ q = ((2 ^ 23 : ℤ) : ℚ) * 2 ^ (q + 1) := by
          rw [hmax, zpow_add₀ (by norm_num : (2 : ℚ) ≠ 0)]
          norm_num
          ring
        rw [h2]
        exact round32_repr (2 ^ 23) (q + 1) (by norm_num) (by norm_num) (by omega)
      · exact round32_repr N q hNpos hlt hq

theorem round32_multiple (x : ℚ) : ∃ z : ℤ, round32 x = (z : ℚ) * 2 ^ (-149 : ℤ) := by
  unfold round32
  split_ifs with h0
  · exact ⟨0, by simp⟩
  · have hq := quantum32_ge x
    generalize quantum32 x = q at hq
    obtain ⟨d, hd⟩ : ∃ d : ℕ, q = -149 + (d : ℤ) := ⟨(q + 149).toNat, by omega⟩
    refine ⟨roundEven (x / 2 ^ q) * 2 ^ d, ?_⟩
    rw [hd, zpow_add₀ (by norm_num : (2 : ℚ) ≠ 0), zpow_natCast]
    push_cast
    ring

theorem round32_le_rel {x : ℚ} (hx : 0 < x) (h : (2 : ℚ) ^ (-126 : ℤ) ≤ x) :
    round32 x ≤ x * (1 + 1 / 2 ^ 24) := by
  have hlog : -126 ≤ Int.log 2 x := by
    apply (Int.zpow_le_iff_le_log (b := 2) (by norm_num) hx).mp
    simpa using h
  have hq : quantum32 x = Int.log 2 x - 23 := by
    unfold quantum32
    rw [abs_of_pos hx]
    exact max_eq_left (by omega)
  have hle := zpow_log_le hx
  have hqp := two_zpow_pos (quantum32 x)
  unfold round32
  rw [if_neg (ne_of_gt hx)]
  have hr := roundEven_le_add_half (x / 2 ^ quantum32 x)
  have h1 : (roundEven (x / 2 ^ quantum32 x) : ℚ) * 2 ^ quantum32 x ≤
      (x / 2 ^ quantum32 x + 1 / 2) * 2 ^ quantum32 x :=
    mul_le_mul_of_nonneg_right hr (le_of_lt hqp)
  have h2 : (x / 2 ^ quantum32 x + 1 / 2) * 2 ^ quantum32 x = x + 2 ^ quantum32 x / 2 := by
    field_simp
    ring
  have h3 : (2 : ℚ) ^ quantum32 x ≤ x / 2 ^ 23 := by
    rw [hq, zpow_sub₀ (by norm_num : (2 : ℚ) ≠ 0)]
    have : (2 : ℚ) ^ (23 : ℤ) = 2 ^ 23 := by norm_num
    rw [this]
    exact div_le_div_of_nonneg_right hle (by norm_num)
  have h5 : x * (1 + 1 / 2 ^ 24) = x + x / 2 ^ 23 / 2 := by ring
  rw [h5]
  rw [h2] at h1
  linarith

theorem round32_subnormal_exact {x : ℚ} (hx : 0 < x) (h : x < (2 : ℚ) ^ (-126 : ℤ)) (z : ℤ)
    (hz : x = (z : ℚ) * 2 ^ (-149 : ℤ)) : round32 x = x := by
  have hp := two_zpow_pos (-149)
  have hz0 : 0 < z := by
    rw [hz] at hx
    have : (0 : ℚ) < (z : ℚ) := by
      by_contra hneg
      have : (z : ℚ) * 2 ^ (-149 : ℤ) ≤ 0 :=
        mul_nonpos_of_nonpos_of_nonneg (not_lt.mp hneg) (le_of_lt hp)
      linarith
    exact_mod_cast this
  have hz1 : z < 2 ^ 24 := by
    have h126 : (2 : ℚ) ^ (23 : ℤ) * 2 ^ (-149 : ℤ) = 2 ^ (-126 : ℤ) := by
      rw [← zpow_add₀ (by norm_num : (2 : ℚ) ≠ 0)]
      norm_num
    have h1 : (z : ℚ) * 2 ^ (-149 : ℤ) < 2 ^ (23 : ℤ) * 2 ^ (-149 : ℤ) := by
      rw [← hz, h126]
      exact h
    have h2 : (z : ℚ) < 2 ^ (23 : ℤ) := lt_of_mul_lt_mul_right h1 (le_of_lt hp)
    have h3 : (z : ℚ) < ((2 ^ 24 : ℤ) : ℚ) := by
      refine lt_trans h2 ?_
      norm_num
    exact_mod_cast h3
  rw [hz]
  exact round32_repr z (-149) hz0 hz1 (le_refl _)

theorem round32_eval (x : ℚ) (e f : ℤ) (he : -126 ≤ e) (h1 : (2 : ℚ) ^ e ≤ x)
    (h2 : x < 2 ^ (e + 1)) (hf1 : (f : ℚ) ≤ x / 2 ^ (e - 23))
    (hf2 : x / 2 ^ (e - 23) < (f : ℚ) + 1) :
    round32 x =
      ((if x / 2 ^ (e - 23) - (f : ℚ) < 1 / 2 then f
        else if 1 / 2 < x / 2 ^ (e - 23) - (f : ℚ) then f + 1
        else if f % 2 = 0 then f else f + 1 : ℤ) : ℚ) * 2 ^ (e - 23) := by
  have hx : 0 < x := lt_of_lt_of_le (two_zpow_pos e) h1
  have hlog := log_eq_of_mem hx h1 h2
  have hq : quantum32 x = e - 23 := by
    unfold quantum32
    rw [abs_of_pos hx, hlog]
    exact max_eq_left (by omega)
  have hfl : Int.floor (x / 2 ^ (e - 23)) = f := Int.floor_eq_iff.mpr ⟨hf1, hf2⟩
  unfold round32
  rw [if_neg (ne_of_gt hx), hq]
  unfold roundEven
  rw [hfl]

theorem round32_one : round32 1 = 1 := by
  have h := round32_repr 1 0 (by norm_num) (by norm_num) (by norm_num)
  simpa using h

/-! ## Lemmas on the float32 model of score.go -/

theorem F32_replicaFactor_nonneg : 0 ≤ F32.replicaFactor :=
  round32_nonneg (by norm_num)

theorem F32_GetScore_nonneg (env : String) (v : Resource) : 0 ≤ F32.GetScore env v := by
  unfold F32.GetScore
  rcases v with ⟨wl, m⟩
  cases wl with
  | none => exact le_refl 0
  | some wl =>
    have hrep : (0 : ℚ) ≤
        (if wl.Replicas > 1 then
          round32 (1 * round32 (round32 (wl.Replicas : ℚ) * F32.replicaFactor))
        else 1) := by
      split_ifs with h
      · have h0 : (0 : ℚ) ≤ (wl.Replicas : ℚ) := by
          have : (0 : ℤ) ≤ wl.Replicas := by omega
          exact_mod_cast this
        exact round32_nonneg (mul_nonneg (by norm_num)
          (round32_nonneg (mul_nonneg (round32_nonneg h0) F32_replicaFactor_nonneg)))
      · norm_num
    simp only []
    generalize (if wl.Replicas > 1 then
        round32 (1 * round32 (round32 (wl.Replicas : ℚ) * F32.replicaFactor))
      else 1) = score at hrep ⊢
    split_ifs with hi hd
    · exact le_refl 0
    · cases m with
      | none => exact hrep
      | some d =>
        simp only []
        split_ifs with hn
        · have h1 : (0 : ℚ) ≤ (d.Status.DesiredNumberScheduled : ℚ) := by
            have : (0 : ℤ) ≤ d.Status.DesiredNumberScheduled := by omega
            exact_mod_cast this
          exact round32_nonneg (mul_nonneg hrep (round32_nonneg h1))
        · exact hrep
    · exact hrep

theorem F32_addScores_cons (env : String) (acc : ℚ) (r : Resource) (rs : List Resource) :
    F32.addScores env acc (r :: rs) =
      F32.addScores env (round32 (acc + F32.GetScore env r)) rs := rfl

theorem F32_addScores_nonneg (env : String) (rs : List Resource) (acc : ℚ) (h : 0 ≤ acc) :
    0 ≤ F32.addScores env acc rs := by
  induction rs generalizing acc with
  | nil => exact h
  | cons r rs ih =>
    rw [F32_addScores_cons]
    exact ih _ (round32_nonneg (add_nonneg h (F32_GetScore_nonneg env r)))

theorem F32_addScores_sublist (env : String) (l₁ l₂ : List Resource) (h : l₁.Sublist l₂) :
    ∀ acc acc' : ℚ, 0 ≤ acc → acc ≤ acc' → round32 acc = acc →
      F32.addScores env acc l₁ ≤ F32.addScores env acc' l₂ := by
  induction h with
  | slnil => intro acc acc' _ hle _; exact hle
  | cons a _ ih =>
    intro acc acc' h0 hle hf
    rw [F32_addScores_cons]
    apply ih acc _ h0 _ hf
    have hw := F32_GetScore_nonneg env a
    calc acc = round32 acc := hf.symm
      _ ≤ round32 (acc' + F32.GetScore env a) := round32_mono h0 (by linarith)
  | cons₂ a _ ih =>
    intro acc acc' h0 hle hf
    rw [F32_addScores_cons, F32_addScores_cons]
    have hw := F32_GetScore_nonneg env a
    have h1 : 0 ≤ acc + F32.GetScore env a := add_nonneg h0 hw
    exact ih _ _ (round32_nonneg h1) (round32_mono h1 (by linarith)) (round32_idem h1)

theorem F32_ControlScore_wcs (env : String) (c : ControlReport) (n : String) :
    (F32.ControlScore env c n).2.1 =
      round32 (F32.addScores env 0 c.AllResources * c.BaseScore) := by
  simp [F32.ControlScore, GetResourcesPerControl]

theorem F32_ControlScore_unorm (env : String) (c : ControlReport) (n : String) :
    (F32.ControlScore env c n).2.2 =
      round32 (F32.addScores env c.Score c.FailedResources * c.BaseScore) := by
  simp [F32.ControlScore, GetResourcesPerControl]

theorem F32_ControlScore_Score (env : String) (c : ControlReport) (n : String) :
    (F32.ControlScore env c n).1.Score =
      if (F32.ControlScore env c n).2.1 > 0 then
        round32 ((F32.ControlScore env c n).2.2 / (F32.ControlScore env c n).2.1)
      else (F32.ControlScore env c n).2.2 := by
  simp [F32.ControlScore, GetResourcesPerControl]

theorem F32_ControlScore_le (env : String) (c : ControlReport) (n : String)
    (hb : 0 < c.BaseScore) (hsub : c.FailedResources.Sublist c.AllResources)
    (hScore : c.Score = 0) :
    0 ≤ (F32.ControlScore env c n).2.2 ∧
    (F32.ControlScore env c n).2.2 ≤ (F32.ControlScore env c n).2.1 := by
  rw [F32_ControlScore_wcs, F32_ControlScore_unorm, hScore]
  have h0 := F32_addScores_nonneg env c.FailedResources 0 (le_refl 0)
  have hle := F32_addScores_sublist env _ _ hsub 0 0 (le_refl 0) (le_refl 0) round32_zero
  have hm : 0 ≤ F32.addScores env 0 c.FailedResources * c.BaseScore :=
    mul_nonneg h0 (le_of_lt hb)
  exact ⟨round32_nonneg hm,
    round32_mono hm (mul_le_mul_of_nonneg_right hle (le_of_lt hb))⟩

theorem F32_scoreControls_acc (env : String) (cs : List ControlReport) :
    ∀ fw : FrameworkReport,
      (∀ c ∈ cs, 0 < c.BaseScore) →
      (∀ c ∈ cs, c.FailedResources.Sublist c.AllResources) →
      (∀ c ∈ cs, c.Score = 0) →
      0 ≤ fw.Score → fw.Score ≤ fw.WCSScore → round32 fw.WCSScore = fw.WCSScore →
      0 ≤ (F32.scoreControls env cs fw).2.Score ∧
      (F32.scoreControls env cs fw).2.Score ≤ (F32.scoreControls env cs fw).2.WCSScore ∧
      round32 (F32.scoreControls env cs fw).2.WCSScore =
        (F32.scoreControls env cs fw).2.WCSScore := by
  induction cs with
  | nil => intro fw _ _ _ h0 hle hf; exact ⟨h0, hle, hf⟩
  | cons c cs ih =>
    intro fw hb hsub hS h0 hle hf
    obtain ⟨hu0, huw⟩ := F32_ControlScore_le env c fw.Name (hb c (List.mem_cons_self c cs))
      (hsub c (List.mem_cons_self c cs)) (hS c (List.mem_cons_self c cs))
    simp only [F32.scoreControls]
    have hs : 0 ≤ fw.Score + (F32.ControlScore env c fw.Name).2.2 := add_nonneg h0 hu0
    have hw : 0 ≤ fw.WCSScore + (F32.ControlScore env c fw.Name).2.1 := by linarith
    exact ih _ (fun d hd => hb d (List.mem_cons_of_mem c hd))
      (fun d hd => hsub d (List.mem_cons_of_mem c hd))
      (fun d hd => hS d (List.mem_cons_of_mem c hd))
      (round32_nonneg hs) (round32_mono hs (by linarith)) (round32_idem hw)

theorem round32_hundred_rel : round32 (100 * (1 + 1 / 2 ^ 24)) = 100 + 1 / 2 ^ 17 := by
  rw [round32_eval _ 6 13107200 (by norm_num) (by norm_num) (by norm_num) (by norm_num)
    (by norm_num)]
  norm_num

theorem round32_mul_hundred_le (w : ℚ) (hw : 0 < w) (hf : round32 w = w) :
    round32 (w * 100) ≤ w * 100 * (1 + 1 / 2 ^ 24) := by
  have hx : 0 < w * 100 := by linarith
  by_cases h : (2 : ℚ) ^ (-126 : ℤ) ≤ w * 100
  · exact round32_le_rel hx h
  · obtain ⟨z, hz⟩ := round32_multiple w
    rw [hf] at hz
    have hz' : w * 100 = ((z * 100 : ℤ) : ℚ) * 2 ^ (-149 : ℤ) := by
      rw [hz]
      push_cast
      ring
    rw [round32_subnormal_exact hx (not_le.mp h) (z * 100) hz']
    have : 0 ≤ w * 100 * (1 / 2 ^ 24) := by positivity
    linarith

/-! ## float32 roundings of the values met in the examples -/

theorem round32_val_11_10 : round32 (11 / 10) = 9227469 / 8388608 := by
  rw [round32_eval _ (0) 9227468 (by norm_num) (by norm_num) (by norm_num) (by norm_num)
    (by norm_num)]
  norm_num

theorem round32_val_7 : round32 (7) = 7 := by
  rw [round32_eval _ (2) 14680064 (by norm_num) (by norm_num) (by norm_num) (by norm_num)
    (by norm_num)]
  norm_num

theorem round32_val_64592283_8388608 : round32 (64592283 / 8388608) = 16148071 / 2097152 := by
  rw [round32_eval _ (2) 16148070 (by norm_num) (by norm_num) (by norm_num) (by norm_num)
    (by norm_num)]
  norm_num

theorem round32_val_16148071_2097152 : round32 (16148071 / 2097152) = 16148071 / 2097152 := by
  rw [round32_eval _ (2) 16148071 (by norm_num) (by norm_num) (by norm_num) (by norm_num)
    (by norm_num)]
  norm_num

theorem round32_val_3 : round32 (3) = 3 := by
  rw [round32_eval _ (1) 12582912 (by norm_num) (by norm_num) (by norm_num) (by norm_num)
    (by norm_num)]
  norm_num

theorem round32_val_27682407_8388608 : round32 (27682407 / 8388608) = 3460301 / 1048576 := by
  rw [round32_eval _ (1) 13841203 (by norm_num) (by norm_num) (by norm_num) (by norm_num)
    (by norm_num)]
  norm_num

theorem round32_val_3460301_1048576 : round32 (3460301 / 1048576) = 3460301 / 1048576 := by
  rw [round32_eval _ (1) 13841204 (by norm_num) (by norm_num) (by norm_num) (by norm_num)
    (by norm_num)]
  norm_num

theorem round32_val_18245223_2097152 : round32 (18245223 / 2097152) = 2280653 / 262144 := by
  rw [round32_eval _ (3) 9122611 (by norm_num) (by norm_num) (by norm_num) (by norm_num)
    (by norm_num)]
  norm_num

theorem round32_val_12582913_1048576 : round32 (12582913 / 1048576) = 12582913 / 1048576 := by
  rw [round32_eval _ (3) 12582913 (by norm_num) (by norm_num) (by norm_num) (by norm_num)
    (by norm_num)]
  norm_num

theorem round32_val_23068673_2097152 : round32 (23068673 / 2097152) = 11 := by
  rw [round32_eval _ (3) 11534336 (by norm_num) (by norm_num) (by norm_num) (by norm_num)
    (by norm_num)]
  norm_num

theorem round32_val_12 : round32 (12) = 12 := by
  rw [round32_eval _ (3) 12582912 (by norm_num) (by norm_num) (by norm_num) (by norm_num)
    (by norm_num)]
  norm_num

theorem round32_val_12582913_12582912 : round32 (12582913 / 12582912) = 8388609 / 8388608 := by
  rw [round32_eval _ (0) 8388608 (by norm_num) (by norm_num) (by norm_num) (by norm_num)
    (by norm_num)]
  norm_num

theorem round32_val_314572825_262144 : round32 (314572825 / 262144) = 9830401 / 8192 := by
  rw [round32_eval _ (10) 9830400 (by norm_num) (by norm_num) (by norm_num) (by norm_num)
    (by norm_num)]
  norm_num

theorem round32_val_9830401_98304 : round32 (9830401 / 98304) = 13107201 / 131072 := by
  rw [round32_eval _ (6) 13107201 (by norm_num) (by norm_num) (by norm_num) (by norm_num)
    (by norm_num)]
  norm_num

theorem round32_val_37748739_1048576 : round32 (37748739 / 1048576) = 9437185 / 262144 := by
  rw [round32_eval _ (5) 9437184 (by norm_num) (by norm_num) (by norm_num) (by norm_num)
    (by norm_num)]
  norm_num

theorem round32_val_36 : round32 (36) = 36 := by
  rw [round32_eval _ (5) 9437184 (by norm_num) (by norm_num) (by norm_num) (by norm_num)
    (by norm_num)]
  norm_num

theorem round32_val_9437185_9437184 : round32 (9437185 / 9437184) = 8388609 / 8388608 := by
  rw [round32_eval _ (0) 8388608 (by norm_num) (by norm_num) (by norm_num) (by norm_num)
    (by norm_num)]
  norm_num

theorem round32_val_9437185_262144 : round32 (9437185 / 262144) = 9437185 / 262144 := by
  rw [round32_eval _ (5) 9437185 (by norm_num) (by norm_num) (by norm_num) (by norm_num)
    (by norm_num)]
  norm_num

theorem round32_val_235929625_65536 : round32 (235929625 / 65536) = 7372801 / 2048 := by
  rw [round32_eval _ (11) 14745601 (by norm_num) (by norm_num) (by norm_num) (by norm_num)
    (by norm_num)]
  norm_num

theorem round32_val_7372801_73728 : round32 (7372801 / 73728) = 6553601 / 65536 := by
  rw [round32_eval _ (6) 13107201 (by norm_num) (by norm_num) (by norm_num) (by norm_num)
    (by norm_num)]
  norm_num

theorem round32_val_9 : round32 (9) = 9 := by
  rw [round32_eval _ (3) 9437184 (by norm_num) (by norm_num) (by norm_num) (by norm_num)
    (by norm_num)]
  norm_num

theorem round32_val_83047221_8388608 : round32 (83047221 / 8388608) = 10380903 / 1048576 := by
  rw [round32_eval _ (3) 10380902 (by norm_num) (by norm_num) (by norm_num) (by norm_num)
    (by norm_num)]
  norm_num

theorem round32_val_10380903_1048576 : round32 (10380903 / 1048576) = 10380903 / 1048576 := by
  rw [round32_eval _ (3) 10380903 (by norm_num) (by norm_num) (by norm_num) (by norm_num)
    (by norm_num)]
  norm_num

theorem round32_val_93428127_1048576 : round32 (93428127 / 1048576) = 2919629 / 32768 := by
  rw [round32_eval _ (6) 11678515 (by norm_num) (by norm_num) (by norm_num) (by norm_num)
    (by norm_num)]
  norm_num

theorem round32_val_2919629_32768 : round32 (2919629 / 32768) = 2919629 / 32768 := by
  rw [round32_eval _ (6) 11678516 (by norm_num) (by norm_num) (by norm_num) (by norm_num)
    (by norm_num)]
  norm_num

theorem round32_val_72990725_8192 : round32 (72990725 / 8192) = 9123841 / 1024 := by
  rw [round32_eval _ (13) 9123840 (by norm_num) (by norm_num) (by norm_num) (by norm_num)
    (by norm_num)]
  norm_num

theorem round32_val_291962912_2919629 : round32 (291962912 / 2919629) = 13107201 / 131072 := by
  rw [round32_eval _ (6) 13107200 (by norm_num) (by norm_num) (by norm_num) (by norm_num)
    (by norm_num)]
  norm_num

theorem round32_val_4 : round32 (4) = 4 := by
  rw [round32_eval _ (2) 8388608 (by norm_num) (by norm_num) (by norm_num) (by norm_num)
    (by norm_num)]
  norm_num

theorem round32_val_2 : round32 (2) = 2 := by
  rw [round32_eval _ (1) 8388608 (by norm_num) (by norm_num) (by norm_num) (by norm_num)
    (by norm_num)]
  norm_num

theorem round32_val_8 : round32 (8) = 8 := by
  rw [round32_eval _ (3) 8388608 (by norm_num) (by norm_num) (by norm_num) (by norm_num)
    (by norm_num)]
  norm_num

theorem round32_val_200 : round32 (200) = 200 := by
  rw [round32_eval _ (7) 13107200 (by norm_num) (by norm_num) (by norm_num) (by norm_num)
    (by norm_num)]
  norm_num

theorem round32_val_25 : round32 (25) = 25 := by
  rw [round32_eval _ (4) 13107200 (by norm_num) (by norm_num) (by norm_num) (by norm_num)
    (by norm_num)]
  norm_num

theorem round32_val_1_4 : round32 (1 / 4) = 1 / 4 := by
  rw [round32_eval _ (-2) 8388608 (by norm_num) (by norm_num) (by norm_num) (by norm_num)
    (by norm_num)]
  norm_num

/-! ## Values of the float32 model on the examples -/

theorem F32_GetScore_resWeight1 : F32.GetScore "" resWeight1 = 1 := by
  simp [F32.GetScore, resWeight1, mkResource, ToLower, ignoredKinds]

theorem F32_GetScore_resWeight3 : F32.GetScore "" resWeight3 = 3 := by
  simp [F32.GetScore, resWeight3, mkResource, ToLower, ignoredKinds, round32_val_3]

theorem F32_GetScore_deployment3 : F32.GetScore "" deployment3 = 3460301 / 1048576 := by
  simp [F32.GetScore, deployment3, mkResource, ToLower, ignoredKinds, F32.replicaFactor,
    round32_val_3, round32_val_11_10]
  norm_num [round32_val_27682407_8388608, round32_val_3460301_1048576]

theorem F32_GetScore_deployment7 : F32.GetScore "" deployment7 = 16148071 / 2097152 := by
  simp [F32.GetScore, deployment7, mkResource, ToLower, ignoredKinds, F32.replicaFactor,
    round32_val_7, round32_val_11_10]
  norm_num [round32_val_64592283_8388608, round32_val_16148071_2097152]

theorem F32_GetScore_deployment9 : F32.GetScore "" deployment9 = 10380903 / 1048576 := by
  simp [F32.GetScore, deployment9, mkResource, ToLower, ignoredKinds, F32.replicaFactor,
    round32_val_9, round32_val_11_10]
  norm_num [round32_val_83047221_8388608, round32_val_10380903_1048576]

theorem F32_ControlScore_scenario :
    F32.addScores "" 0 scenarioControl.AllResources = 4 ∧
    (F32.ControlScore "" scenarioControl "NSA").2.1 = 8 ∧
    (F32.ControlScore "" scenarioControl "NSA").2.2 = 2 := by
  refine ⟨?_, ?_, ?_⟩
  · simp [F32.addScores, scenarioControl, F32_GetScore_resWeight1, F32_GetScore_resWeight3,
      round32_one]
    norm_num [round32_val_4]
  · rw [F32_ControlScore_wcs]
    simp [F32.addScores, scenarioControl, F32_GetScore_resWeight1, F32_GetScore_resWeight3,
      round32_one]
    norm_num [round32_val_4, round32_val_8]
  · rw [F32_ControlScore_unorm]
    simp [F32.addScores, scenarioControl, F32_GetScore_resWeight1, round32_one]
    norm_num [round32_val_2]

theorem F32_ControlScore_permuted :
    (F32.ControlScore "" permutedControl "NSA").2.1 = 12 ∧
    (F32.ControlScore "" permutedControl "NSA").2.2 = 12582913 / 1048576 := by
  constructor
  · rw [F32_ControlScore_wcs]
    simp [F32.addScores, permutedControl, F32_GetScore_resWeight1, F32_GetScore_deployment3,
      F32_GetScore_deployment7]
    norm_num [round32_val_3460301_1048576, round32_val_23068673_2097152, round32_val_12]
  · rw [F32_ControlScore_unorm]
    simp [F32.addScores, permutedControl, F32_GetScore_resWeight1, F32_GetScore_deployment3,
      F32_GetScore_deployment7, round32_one]
    norm_num [round32_val_18245223_2097152, round32_val_12582913_1048576]

/-! ## Range claims, decided by float32 rounding -/

/-- C8, as stated, fails in float32: permutedControl has BaseScore 1, Score 0 on
entry and failed resources that are a rearrangement of its evaluated resources
(deployments with 3, 7 and 1 replicas). The evaluated sum rounds to 12, the failed
sum, added in the order 1, 7, 3, rounds to 12582913/1048576, and ControlScore leaves
the control with Score 8388609/8388608 = 1.00000012, above 1. -/
theorem float32_ControlScore_above_one :
    0 < (F32.ControlScore "" permutedControl "NSA").2.1 ∧
    0 < permutedControl.BaseScore ∧
    permutedControl.FailedResources.Subperm permutedControl.AllResources ∧
    permutedControl.Score = 0 ∧
    (F32.ControlScore "" permutedControl "NSA").1.Score = 8388609 / 8388608 ∧
    ¬ (F32.ControlScore "" permutedControl "NSA").1.Score ≤ 1 := by
  obtain ⟨hw, hu⟩ := F32_ControlScore_permuted
  have hs : (F32.ControlScore "" permutedControl "NSA").1.Score = 8388609 / 8388608 := by
    rw [F32_ControlScore_Score, hw, hu]
    norm_num [round32_val_12582913_12582912]
  refine ⟨by rw [hw]; norm_num, by simp [permutedControl], ?_, rfl, hs, by rw [hs]; norm_num⟩
  exact List.Perm.subperm (by decide)

/-- C8, amended. For every control whose wcsScore is > 0, with BaseScore > 0, Score 0
on entry and failed resources that appear among the evaluated resources in the same
order, as long as no float32 operation overflows (the sum of the evaluated weights
and wcsScore stay within maxFloat32), the Score of the control after ControlScore
lies between 0 and 1, float32 rounding included. -/
theorem float32_ControlScore_ratio (env : String) (c : ControlReport) (n : String)
    (hWcs : 0 < (F32.ControlScore env c n).2.1) (hb : 0 < c.BaseScore)
    (hsub : c.FailedResources.Sublist c.AllResources) (hScore : c.Score = 0)
    (_hSum : F32.addScores env 0 c.AllResources ≤ maxFloat32)
    (_hMax : (F32.ControlScore env c n).2.1 ≤ maxFloat32) :
    0 ≤ (F32.ControlScore env c n).1.Score ∧ (F32.ControlScore env c n).1.Score ≤ 1 := by
  obtain ⟨hu0, huw⟩ := F32_ControlScore_le env c n hb hsub hScore
  rw [F32_ControlScore_Score, if_pos hWcs]
  have hq0 : 0 ≤ (F32.ControlScore env c n).2.2 / (F32.ControlScore env c n).2.1 :=
    div_nonneg hu0 (le_of_lt hWcs)
  have hq1 : (F32.ControlScore env c n).2.2 / (F32.ControlScore env c n).2.1 ≤ 1 :=
    (div_le_one hWcs).mpr huw
  refine ⟨round32_nonneg hq0, ?_⟩
  calc round32 ((F32.ControlScore env c n).2.2 / (F32.ControlScore env c n).2.1)
      ≤ round32 1 := round32_mono hq0 hq1
    _ = 1 := round32_one

/-- C8, amended, at the control of the end-to-end scenario: the sum of the evaluated
weights is 4, wcsScore is 8, and the control ends with Score 1/4. -/
theorem float32_ControlScore_ratio_witness :
    (F32.ControlScore "" scenarioControl "NSA").2.1 = 8 ∧
    (F32.ControlScore "" scenarioControl "NSA").1.Score = 1 / 4 ∧
    0 ≤ (F32.ControlScore "" scenarioControl "NSA").1.Score ∧
    (F32.ControlScore "" scenarioControl "NSA").1.Score ≤ 1 := by
  obtain ⟨hsum, hw, hu⟩ := F32_ControlScore_scenario
  have hs : (F32.ControlScore "" scenarioControl "NSA").1.Score = 1 / 4 := by
    rw [F32_ControlScore_Score, hw, hu]
    norm_num [round32_val_1_4]
  exact ⟨hw, hs, float32_ControlScore_ratio "" scenarioControl "NSA" (by rw [hw]; norm_num)
    (by simp [scenarioControl])
    (List.Sublist.cons₂ resWeight1 (List.nil_sublist [resWeight3])) rfl
    (by rw [hsum]; norm_num [maxFloat32]) (by rw [hw]; norm_num [maxFloat32])⟩

theorem F32_afterControls_Score (env : String) (fw : FrameworkReport) :
    (F32.afterControls env fw).Score = (F32.scoreControls env fw.ControlReports fw).2.Score := by
  simp [F32.afterControls]

theorem F32_afterControls_WCSScore (env : String) (fw : FrameworkReport) :
    (F32.afterControls env fw).WCSScore =
      (F32.scoreControls env fw.ControlReports fw).2.WCSScore := by
  simp [F32.afterControls]

theorem F32_CalculateFrameworkScore_Score (env : String) (fw : FrameworkReport) :
    (F32.CalculateFrameworkScore env fw).1.Score =
      if (F32.afterControls env fw).WCSScore = 0 then 0
      else round32 (round32 ((F32.afterControls env fw).Score * 100) /
        (F32.afterControls env fw).WCSScore) := by
  unfold F32.CalculateFrameworkScore
  simp only []
  split_ifs with h <;> rfl

theorem F32_afterControls_single (env : String) (fw : FrameworkReport) (c : ControlReport)
    (hc : fw.ControlReports = [c]) (hS : fw.Score = 0) (hW : fw.WCSScore = 0) :
    (F32.afterControls env fw).WCSScore = round32 (0 + (F32.ControlScore env c fw.Name).2.1) ∧
    (F32.afterControls env fw).Score = round32 (0 + (F32.ControlScore env c fw.Name).2.2) := by
  rw [F32_afterControls_WCSScore, F32_afterControls_Score, hc]
  simp [F32.scoreControls, hS, hW]

theorem F32_afterControls_scenario :
    (F32.afterControls "" scenarioFramework).WCSScore = 8 ∧
    (F32.afterControls "" scenarioFramework).Score = 2 := by
  obtain ⟨_, hw, hu⟩ := F32_ControlScore_scenario
  obtain ⟨h1, h2⟩ := F32_afterControls_single "" scenarioFramework scenarioControl rfl rfl rfl
  have hn : scenarioFramework.Name = "NSA" := rfl
  rw [hn, hw] at h1
  rw [hn, hu] at h2
  constructor
  · rw [h1]; norm_num [round32_val_8]
  · rw [h2]; norm_num [round32_val_2]

theorem F32_afterControls_rounded :
    (F32.afterControls "" roundedFramework).WCSScore = 2919629 / 32768 ∧
    (F32.afterControls "" roundedFramework).Score = 2919629 / 32768 := by
  obtain ⟨h1, h2⟩ := F32_afterControls_single "" roundedFramework roundedControl rfl rfl rfl
  have hw : (F32.ControlScore "" roundedControl roundedFramework.Name).2.1 = 2919629 / 32768 := by
    rw [F32_ControlScore_wcs]
    simp [F32.addScores, roundedControl, F32_GetScore_deployment9]
    norm_num [round32_val_10380903_1048576, round32_val_93428127_1048576]
  have hu : (F32.ControlScore "" roundedControl roundedFramework.Name).2.2 = 2919629 / 32768 := by
    rw [F32_ControlScore_unorm]
    simp [F32.addScores, roundedControl, F32_GetScore_deployment9]
    norm_num [round32_val_10380903_1048576, round32_val_93428127_1048576]
  rw [hw] at h1
  rw [hu] at h2
  constructor
  · rw [h1]; norm_num [round32_val_2919629_32768]
  · rw [h2]; norm_num [round32_val_2919629_32768]

theorem F32_afterControls_permuted :
    (F32.afterControls "" permutedFramework).WCSScore = 36 ∧
    (F32.afterControls "" permutedFramework).Score = 9437185 / 262144 := by
  obtain ⟨h1, h2⟩ := F32_afterControls_single "" permutedFramework
    { permutedControl with BaseScore := 3 } rfl rfl rfl
  have hw : (F32.ControlScore "" { permutedControl with BaseScore := 3 }
      permutedFramework.Name).2.1 = 36 := by
    rw [F32_ControlScore_wcs]
    simp [F32.addScores, permutedControl, F32_GetScore_resWeight1, F32_GetScore_deployment3,
      F32_GetScore_deployment7]
    norm_num [round32_val_3460301_1048576, round32_val_23068673_2097152, round32_val_12,
      round32_val_36]
  have hu : (F32.ControlScore "" { permutedControl with BaseScore := 3 }
      permutedFramework.Name).2.2 = 9437185 / 262144 := by
    rw [F32_ControlScore_unorm]
    simp [F32.addScores, permutedControl, F32_GetScore_resWeight1, F32_GetScore_deployment3,
      F32_GetScore_deployment7, round32_one]
    norm_num [round32_val_18245223_2097152, round32_val_12582913_1048576,
      round32_val_37748739_1048576]
  rw [hw] at h1
  rw [hu] at h2
  constructor
  · rw [h1]; norm_num [round32_val_36]
  · rw [h2]; norm_num [round32_val_9437185_262144]

/-- C2, as stated, fails in float32, in two ways. In roundedFramework one control
with BaseScore 9 has a single evaluated deployment with nine replicas, which failed:
Score and WCSScore both accumulate to 2919629/32768, the product by 100 rounds up,
and the framework ends with Score 13107201/131072 = 100.0000076, above 100. In
permutedFramework the failed resources are the evaluated ones in another order: the
framework ends with Score 6553601/65536 = 100.0000153, above 100 + 2^-17 as well. -/
theorem float32_CalculateFrameworkScore_above_hundred :
    ((∃ c ∈ roundedFramework.ControlReports, ∃ r ∈ c.AllResources, 0 < F32.GetScore "" r) ∧
      (∀ c ∈ roundedFramework.ControlReports, 0 < c.BaseScore ∧ c.Score = 0 ∧
        c.FailedResources.Subperm c.AllResources) ∧
      roundedFramework.Score = 0 ∧ roundedFramework.WCSScore = 0 ∧
      (F32.CalculateFrameworkScore "" roundedFramework).1.Score = 13107201 / 131072 ∧
      ¬ (F32.CalculateFrameworkScore "" roundedFramework).1.Score ≤ 100) ∧
    ((∃ c ∈ permutedFramework.ControlReports, ∃ r ∈ c.AllResources, 0 < F32.GetScore "" r) ∧
      (∀ c ∈ permutedFramework.ControlReports, 0 < c.BaseScore ∧ c.Score = 0 ∧
        c.FailedResources.Subperm c.AllResources) ∧
      permutedFramework.Score = 0 ∧ permutedFramework.WCSScore = 0 ∧
      (F32.CalculateFrameworkScore "" permutedFramework).1.Score = 6553601 / 65536 ∧
      ¬ (F32.CalculateFrameworkScore "" permutedFramework).1.Score ≤ 100 + 1 / 2 ^ 17) := by
  obtain ⟨hw1, hs1⟩ := F32_afterControls_rounded
  obtain ⟨hw2, hs2⟩ := F32_afterControls_permuted
  have hv1 : (F32.CalculateFrameworkScore "" roundedFramework).1.Score = 13107201 / 131072 := by
    rw [F32_CalculateFrameworkScore_Score, hw1, hs1]
    norm_num [round32_val_72990725_8192, round32_val_291962912_2919629]
  have hv2 : (F32.CalculateFrameworkScore "" permutedFramework).1.Score = 6553601 / 65536 := by
    rw [F32_CalculateFrameworkScore_Score, hw2, hs2]
    norm_num [round32_val_235929625_65536, round32_val_7372801_73728]
  refine ⟨⟨?_, ?_, rfl, rfl, hv1, by rw [hv1]; norm_num⟩,
    ⟨?_, ?_, rfl, rfl, hv2, by rw [hv2]; norm_num⟩⟩
  · exact ⟨roundedControl, by simp [roundedFramework], deployment9, by simp [roundedControl],
      by rw [F32_GetScore_deployment9]; norm_num⟩
  · intro c hc
    simp [roundedFramework] at hc
    rw [hc]
    exact ⟨by simp [roundedControl], rfl, List.Subperm.refl _⟩
  · exact ⟨{ permutedControl with BaseScore := 3 }, by simp [permutedFramework], resWeight1,
      by simp [permutedControl], by rw [F32_GetScore_resWeight1]; norm_num⟩
  · intro c hc
    simp [permutedFramework] at hc
    rw [hc]
    exact ⟨by norm_num, rfl, List.Perm.subperm (by decide)⟩

/-- C2, amended. For every framework in which every control has BaseScore > 0, Score
0 on entry and failed resources that appear among its evaluated resources in the
same order, with Score and WCSScore of the framework 0 on entry, as long as no
float32 operation overflows (the sum of the evaluated weights of every control and
100 times the accumulated WCSScore stay within maxFloat32), the framework Score
after CalculateFrameworkScore lies between 0 and 100 + 2^-17 (100.0000076), float32
rounding included; this holds in particular when a control carries a resource of
positive weight. -/
theorem float32_CalculateFrameworkScore_range (env : String) (fw : FrameworkReport)
    (hb : ∀ c ∈ fw.ControlReports, 0 < c.BaseScore)
    (hsub : ∀ c ∈ fw.ControlReports, c.FailedResources.Sublist c.AllResources)
    (hScore : fw.Score = 0) (hWcs : fw.WCSScore = 0)
    (hCtrl : ∀ c ∈ fw.ControlReports, c.Score = 0)
    (_hSum : ∀ c ∈ fw.ControlReports, F32.addScores env 0 c.AllResources ≤ maxFloat32)
    (_hMax : (F32.afterControls env fw).WCSScore * 100 ≤ maxFloat32) :
    0 ≤ (F32.CalculateFrameworkScore env fw).1.Score ∧
    (F32.CalculateFrameworkScore env fw).1.Score ≤ 100 + 1 / 2 ^ 17 := by
  obtain ⟨hS0, hSW, hWf⟩ := F32_scoreControls_acc env fw.ControlReports fw hb hsub hCtrl
    (by rw [hScore]) (by rw [hScore, hWcs]) (by rw [hWcs]; exact round32_zero)
  rw [← F32_afterControls_Score, ← F32_afterControls_WCSScore] at hSW
  rw [← F32_afterControls_Score] at hS0
  rw [← F32_afterControls_WCSScore] at hWf
  rw [F32_CalculateFrameworkScore_Score]
  generalize (F32.afterControls env fw).Score = S at hS0 hSW
  generalize (F32.afterControls env fw).WCSScore = W at hSW hWf
  split_ifs with h0
  · constructor <;> norm_num
  · have hW : 0 < W := lt_of_le_of_ne (le_trans hS0 hSW) (Ne.symm h0)
    have hS100 : 0 ≤ S * 100 := by linarith
    have h1 : round32 (S * 100) ≤ round32 (W * 100) := round32_mono hS100 (by linarith)
    have h2 := round32_mul_hundred_le W hW hWf
    have h3 : 0 ≤ round32 (S * 100) / W := div_nonneg (round32_nonneg hS100) (le_of_lt hW)
    have h4 : round32 (S * 100) / W ≤ 100 * (1 + 1 / 2 ^ 24) := by
      rw [div_le_iff₀ hW]
      have : 100 * (1 + 1 / 2 ^ 24) * W = W * 100 * (1 + 1 / 2 ^ 24) := by ring
      rw [this]
      linarith
    refine ⟨round32_nonneg h3, ?_⟩
    calc round32 (round32 (S * 100) / W) ≤ round32 (100 * (1 + 1 / 2 ^ 24)) :=
          round32_mono h3 h4
      _ = 100 + 1 / 2 ^ 17 := round32_hundred_rel

/-- C2, amended, at the end-to-end scenario: the accumulated WCSScore is 8, and the
framework ends with Score 25, between 0 and 100 + 2^-17. -/
theorem float32_CalculateFrameworkScore_range_witness :
    (∃ c ∈ scenarioFramework.ControlReports, ∃ r ∈ c.AllResources, 0 < F32.GetScore "" r) ∧
    (F32.afterControls "" scenarioFramework).WCSScore = 8 ∧
    (F32.CalculateFrameworkScore "" scenarioFramework).1.Score = 25 ∧
    0 ≤ (F32.CalculateFrameworkScore "" scenarioFramework).1.Score ∧
    (F32.CalculateFrameworkScore "" scenarioFramework).1.Score ≤ 100 + 1 / 2 ^ 17 := by
  obtain ⟨hw, hs⟩ := F32_afterControls_scenario
  obtain ⟨hsum, _, _⟩ := F32_ControlScore_scenario
  have hv : (F32.CalculateFrameworkScore "" scenarioFramework).1.Score = 25 := by
    rw [F32_CalculateFrameworkScore_Score, hw, hs]
    norm_num [round32_val_200, round32_val_25]
  refine ⟨⟨scenarioControl, by simp [scenarioFramework], resWeight1, by simp [scenarioControl],
    by rw [F32_GetScore_resWeight1]; norm_num⟩, hw, hv,
    float32_CalculateFrameworkScore_range "" scenarioFramework ?_ ?_ rfl rfl ?_ ?_ ?_⟩
  · intro c hc
    simp [scenarioFramework] at hc
    rw [hc]
    simp [scenarioControl]
  · intro c hc
    simp [scenarioFramework] at hc
    rw [hc]
    exact List.Sublist.cons₂ resWeight1 (List.nil_sublist [resWeight3])
  · intro c hc
    simp [scenarioFramework] at hc
    rw [hc]
    rfl
  · intro c hc
    simp [scenarioFramework] at hc
    rw [hc, hsum]
    norm_num [maxFloat32]
  · rw [hw]
    norm_num [maxFloat32]

end Score
